import Mathlib

/-!
Shallow embedding of the `get_products` endpoint of `src/api-gateway/main.py`
(the read-through query service: cache lookup, database query, mock fallback,
cache write-back).

Modelling conventions:
* Numeric values (prices, the literal `0.9`) are embedded as exact rationals
  (`ℚ`); Python float rounding is not modelled, the literals denote the
  rationals written in the source.
* Serialization is modelled at the JSON-value level: a cached payload is
  either `CacheVal.empty` (the empty string, falsy in Python), a string that
  fails `json.loads` (`CacheVal.corrupt`), or a string that parses to a JSON
  value `v` (`CacheVal.json v`).  `json.dumps` of a record list is the JSON
  array of its record objects (`encodeProducts`).
* Collaborator behaviour (Redis availability / failure, the cache contents,
  PostgreSQL availability and query outcome, the random generator used by the
  mock branch) is an explicit environment `Env`.  `random.randint` /
  `random.uniform` are abstracted as oracle streams; their numeric ranges are
  not modelled since no property here depends on them.
* The `timestamp` field of the response is omitted (wall-clock time).
* Python `try/except` blocks are translated as matches on `Except`-valued
  collaborator operations; the function is total exactly because every
  fallible operation in the source is wrapped in a `try/except`.
-/

/-- A JSON value, as produced by Python's `json.loads`. -/
inductive Json where
  | null : Json
  | bool (b : Bool) : Json
  | num (q : ℚ) : Json
  | str (s : String) : Json
  | arr (xs : List Json) : Json
  | obj (fields : List (String × Json)) : Json
deriving Repr

/-- A raw value stored in Redis under the products key, classified by how
`json.loads` treats it: the empty string (falsy, so never parsed), a string
that raises on `json.loads`, or a string parsing to a JSON value. -/
inductive CacheVal where
  | empty : CacheVal
  | corrupt : CacheVal
  | json (v : Json) : CacheVal
deriving Repr

/-- A row returned by `SELECT id, sku, name, stock_level, price FROM
inventory.products LIMIT $1`.  `price` is the nullable numeric column
(`none` models SQL NULL). -/
structure Row where
  id : Int
  sku : String
  name : String
  stock_level : Int
  price : Option ℚ
deriving Repr, DecidableEq

/-- One element of the `product_list` built by the endpoint: a Python dict
with keys id, sku, name, stock_level, price, discounted_price. -/
structure ProductDict where
  id : String
  sku : String
  name : String
  stock_level : Int
  price : ℚ
  discounted_price : ℚ
deriving Repr, DecidableEq

/-- The caller-visible part of the endpoint's `result` dict (the `timestamp`
field, wall-clock time, is not modelled). -/
structure QueryResult where
  products : Json
  source : String
  cached : Bool
deriving Repr

/-- The collaborators of `get_products`: Redis (availability, stored
contents, connectivity failures on get/set), PostgreSQL (availability and
query outcome), and the random streams used by the mock branch. -/
structure Env where
  redis_avail : Bool
  cache : String → Option CacheVal
  cache_get_fails : Bool
  cache_set_fails : Bool
  db_avail : Bool
  db_rows : Except String (List Row)
  rand_stock : Int → Int
  rand_price : Int → ℚ
  rand_disc : Int → ℚ

/-- Everything one invocation produces: the returned result, the list of
attempted `setex` calls (key, ttl, value), and the cache contents after the
call. -/
structure Outcome where
  result : QueryResult
  writes : List (String × Int × Json)
  cache' : String → Option CacheVal

/-- `cache_key = f"products:list:{limit}"` (main.py line 338). -/
def cacheKey (limit : Int) : String := "products:list:" ++ toString limit

/-- Python truthiness of the string Redis returned (`if cached_data:`):
only the empty string is falsy. -/
def truthyCache : CacheVal → Bool
  | .empty => false
  | _ => true

/-- `json.loads` on a cached payload: raises on a corrupt string, returns
the parsed value otherwise. -/
def jsonLoads : CacheVal → Except String Json
  | .empty => .error "json decode error"
  | .corrupt => .error "json decode error"
  | .json v => .ok v

/-- `str(p["id"])` for an integer id. -/
def pyStr (i : Int) : String := toString i

/-- Truthiness of the nullable `price` column (`if p["price"]`): NULL and 0
are falsy. -/
def priceTruthy : Option ℚ → Bool
  | none => false
  | some q => q != 0

/-- Mapping of one database row to a product dict (main.py lines 360-371):
`price = float(p["price"]) if p["price"] else 0` and
`discounted_price = float(p["price"]) * 0.9 if p["price"] else 0`. -/
def rowToProduct (r : Row) : ProductDict :=
  { id := pyStr r.id
    sku := r.sku
    name := r.name
    stock_level := r.stock_level
    price := if priceTruthy r.price then (r.price.getD 0) else 0
    discounted_price := if priceTruthy r.price then (r.price.getD 0) * (9 / 10) else 0 }

/-- JSON encoding of one product dict, in the key order the source writes. -/
def productToJson (p : ProductDict) : Json :=
  .obj [("id", .str p.id), ("sku", .str p.sku), ("name", .str p.name),
        ("stock_level", .num (p.stock_level : ℚ)), ("price", .num p.price),
        ("discounted_price", .num p.discounted_price)]

/-- `json.dumps(product_list)` at the JSON-value level. -/
def encodeProducts (l : List ProductDict) : Json := .arr (l.map productToJson)

/-- Decoding a JSON value back into a product dict (field-for-field inverse
of `productToJson`; integer-valued `stock_level` is recovered from the
rational). -/
def decodeProduct : Json → Option ProductDict
  | .obj [("id", .str i), ("sku", .str s), ("name", .str n),
          ("stock_level", .num st), ("price", .num p),
          ("discounted_price", .num d)] =>
      if st.den = 1 then some ⟨i, s, n, st.num, p, d⟩ else none
  | _ => none

/-- Decoding a list of JSON values element by element. -/
def decodeList : List Json → Option (List ProductDict)
  | [] => some []
  | x :: xs =>
    match decodeProduct x, decodeList xs with
    | some p, some t => some (p :: t)
    | _, _ => none

/-- Decoding a JSON value back into a product list. -/
def decodeProducts : Json → Option (List ProductDict)
  | .arr xs => decodeList xs
  | _ => none

/-- Python `range(a, b)` as a list of integers. -/
def pyRange (a b : Int) : List Int :=
  (List.range (b - a).toNat).map (fun k => a + Int.ofNat k)

/-- One synthetic record of the mock branch (main.py lines 391-401 and
405-415); the random draws are read from the environment's oracle streams. -/
def mockProduct (e : Env) (i : Int) : ProductDict :=
  { id := "mock-" ++ toString i
    sku := "MOCK-" ++ toString i
    name := "Mock Product " ++ toString i
    stock_level := e.rand_stock i
    price := e.rand_price i
    discounted_price := e.rand_disc i }

/-- The synthetic record list: `for i in range(1, min(limit + 1, 6))`. -/
def mockList (e : Env) (limit : Int) : List ProductDict :=
  (pyRange 1 (min (limit + 1) 6)).map (mockProduct e)

/-- The cache-read step (main.py lines 336-347): `some v` when the cache
returned a truthy string that parsed to `v`; `none` when the client is
absent, the read raised, the key was missing or falsy, or `json.loads`
raised — every such case falls through to the database step. -/
def cacheStep (e : Env) (limit : Int) : Option Json :=
  if e.redis_avail then
    if e.cache_get_fails then none
    else
      match e.cache (cacheKey limit) with
      | none => none
      | some cv =>
        if truthyCache cv then
          match jsonLoads cv with
          | .ok v => some v
          | .error _ => none
        else none
  else none

/-- The database / mock part of the endpoint (main.py lines 350-416): on a
successful query, map the rows, attempt the write-back only when the client
exists and the list is non-empty (`if redis_client and product_list:`); on
query failure or absent pool, build the synthetic list. -/
def storeStep (e : Env) (limit : Int) : Outcome :=
  if e.db_avail then
    match e.db_rows with
    | .ok rows =>
      let product_list := rows.map rowToProduct
      let payload := encodeProducts product_list
      let doWrite := e.redis_avail && !product_list.isEmpty
      { result := { products := payload, source := "database", cached := false }
        writes := if doWrite then [(cacheKey limit, 300, payload)] else []
        cache' := if doWrite && !e.cache_set_fails then
            (fun k => if k = cacheKey limit then some (.json payload) else e.cache k)
          else e.cache }
    | .error _ =>
      { result := { products := encodeProducts (mockList e limit), source := "mock",
                    cached := false }
        writes := []
        cache' := e.cache }
  else
    { result := { products := encodeProducts (mockList e limit), source := "mock",
                  cached := false }
      writes := []
      cache' := e.cache }

/-- The whole endpoint `get_products` (main.py lines 323-418). -/
def get_products (e : Env) (limit : Int) : Outcome :=
  match cacheStep e limit with
  | some v =>
    { result := { products := v, source := "cache", cached := true }
      writes := []
      cache' := e.cache }
  | none => storeStep e limit

/-! Concrete environments used to instantiate the theorems. -/

/-- A fully degraded environment: no Redis client, no database pool. -/
def env0 : Env :=
  { redis_avail := false
    cache := fun _ => none
    cache_get_fails := false
    cache_set_fails := false
    db_avail := false
    db_rows := .error "no pool"
    rand_stock := fun _ => 7
    rand_price := fun _ => 100
    rand_disc := fun _ => 50 }

/-- A healthy environment: Redis up with an empty cache, database up and
returning `rows`. -/
def envRows (rows : List Row) : Env :=
  { env0 with redis_avail := true, db_avail := true, db_rows := .ok rows }

/-- Three concrete database rows. -/
def rows3 : List Row :=
  [⟨1, "SKU-1", "Widget", 4, some 20⟩,
   ⟨2, "SKU-2", "Gadget", 0, some 35⟩,
   ⟨3, "SKU-3", "Gizmo", 9, none⟩]

/-- `e` with the entry for `limit`'s key removed (used to state that a
corrupt cached value behaves exactly like a missing one). -/
def eMiss (e : Env) (limit : Int) : Env :=
  { e with cache := fun k => if k = cacheKey limit then none else e.cache k }

/-- An environment whose cache holds a string that fails `json.loads` under
the key for `limit = 2`. -/
def envCorrupt : Env :=
  { env0 with
    redis_avail := true
    cache := fun k => if k = cacheKey 2 then some .corrupt else none }

/-- An environment whose cache holds the bare JSON number 42 under the
key for `limit = 10`. -/
def envNum : Env :=
  { env0 with
    redis_avail := true
    cache := fun k => if k = cacheKey 10 then some (.json (.num 42)) else none }

/-! ## C1 -/

/-- Claim C1: for every `limit > 0`, `get_products` never raises — under
every combination of cache availability, cache read failure, store
availability and store query failure it returns a `QueryResult` whose
`source` is one of cache, database, mock.  (The embedding is a total
function because every fallible operation in the source is wrapped in a
`try/except`; the quantification over `e : Env` covers all failure
combinations.) -/
theorem get_products_source_mem (e : Env) (limit : Int) (h : 0 < limit) :
    (get_products e limit).result.source ∈ ["cache", "database", "mock"] := by
  unfold get_products
  cases hc : cacheStep e limit with
  | some v => simp
  | none =>
    unfold storeStep
    cases hdb : e.db_avail with
    | false => simp
    | true => cases e.db_rows <;> simp

/-- Witness for C1 at `limit = 3` in the degraded environment. -/
theorem get_products_source_mem_inst :
    (get_products env0 3).result.source ∈ ["cache", "database", "mock"] :=
  get_products_source_mem env0 3 (by decide)

/-! ## C2 -/

/-- Counterexample to claim C2: the endpoint performs no limit validation.
With `limit = -1` the request is not rejected before the cache/store/mock
algorithm runs — the algorithm runs and returns a normal `QueryResult` from
the mock branch (`source = "mock"`, empty record list). -/
theorem get_products_no_limit_check_cex :
    (get_products env0 (-1)).result.source = "mock" ∧
    (get_products env0 (-1)).result.products = Json.arr [] ∧
    (get_products env0 (-1)).result.cached = false := by
  refine ⟨rfl, rfl, rfl⟩

/-- `mockList` is empty for non-positive limits:
`range(1, min(limit + 1, 6))` is empty when `limit ≤ 0`. -/
theorem mockList_eq_nil (e : Env) (limit : Int) (h : limit ≤ 0) :
    mockList e limit = [] := by
  unfold mockList pyRange
  have h0 : (min (limit + 1) 6 - 1).toNat = 0 := by omega
  simp [h0]

/-- Claim C2 amended: no limit validation exists — a non-positive `limit` is
processed by the same cache/store/mock algorithm as any other value and is
never rejected; on the mock path it yields an empty record list. -/
theorem get_products_nonpositive_processed (e : Env) (limit : Int) (h : limit ≤ 0) :
    (get_products e limit).result.source ∈ ["cache", "database", "mock"] ∧
    ((get_products e limit).result.source = "mock" →
      (get_products e limit).result.products = Json.arr []) := by
  unfold get_products
  cases hc : cacheStep e limit with
  | some v => simp
  | none =>
    unfold storeStep
    cases hdb : e.db_avail with
    | false => simp [mockList_eq_nil e limit h, encodeProducts]
    | true => cases e.db_rows <;> simp [mockList_eq_nil e limit h, encodeProducts]

/-- Witness for the amended C2 at `limit = 0`. -/
theorem get_products_nonpositive_processed_inst :
    (get_products env0 0).result.source ∈ ["cache", "database", "mock"] ∧
    ((get_products env0 0).result.source = "mock" →
      (get_products env0 0).result.products = Json.arr []) :=
  get_products_nonpositive_processed env0 0 (by decide)

/-! ## C9 -/

/-- Claim C9: whenever the result has `source = mock`, no cache write
occurs — the list of attempted `setex` calls is empty and the cache contents
are unchanged. -/
theorem get_products_mock_no_write (e : Env) (limit : Int)
    (hm : (get_products e limit).result.source = "mock") :
    (get_products e limit).writes = [] ∧
    (get_products e limit).cache' = e.cache := by
  unfold get_products storeStep at hm ⊢
  cases hc : cacheStep e limit with
  | some v => simp [hc] at hm
  | none =>
    cases hdb : e.db_avail with
    | false => simp [hc, hdb]
    | true =>
      cases hrows : e.db_rows with
      | ok rows => simp [hc, hdb, hrows] at hm
      | error err => simp [hc, hdb, hrows]

/-- Witness for C9: store unavailable, so the result is mock and nothing is
written. -/
theorem get_products_mock_no_write_inst :
    (get_products env0 4).writes = [] ∧
    (get_products env0 4).cache' = env0.cache :=
  get_products_mock_no_write env0 4 rfl

/-! ## C10 -/

/-- Claim C10: the cache-hit path performs no shape validation — any stored
string that parses to a JSON value `v` (a number, an object, …) is returned
verbatim as the `products` field, with `source = cache` and `cached = true`. -/
theorem get_products_cache_hit_verbatim (e : Env) (limit : Int) (v : Json)
    (hr : e.redis_avail = true) (hg : e.cache_get_fails = false)
    (hc : e.cache (cacheKey limit) = some (.json v)) :
    (get_products e limit).result.products = v ∧
    (get_products e limit).result.source = "cache" ∧
    (get_products e limit).result.cached = true := by
  have hstep : cacheStep e limit = some v := by
    unfold cacheStep
    simp [hr, hg, hc, truthyCache, jsonLoads]
  unfold get_products
  simp [hstep]

/-- Witness for C10: a cached bare number is returned verbatim. -/
theorem get_products_cache_hit_verbatim_inst :
    (get_products envNum 10).result.products = Json.num 42 ∧
    (get_products envNum 10).result.source = "cache" ∧
    (get_products envNum 10).result.cached = true :=
  get_products_cache_hit_verbatim envNum 10 (.num 42) rfl rfl (by simp [envNum])

/-! ## C3 -/

/-- Counterexample to claim C3: the store read succeeds with zero rows
(`source = database`), yet no cache write-back is attempted — the source
guards the write with `if redis_client and product_list:`, so an empty row
list skips the `setex` even though Redis is available. -/
theorem get_products_empty_writeback_cex :
    (get_products (envRows []) 1).result.source = "database" ∧
    (get_products (envRows []) 1).writes = [] := by
  refine ⟨rfl, rfl⟩

/-- Claim C3 amended: for every `limit > 0`, whenever the store read
succeeds the operation returns `source = database`, `cached = false`, and a
write-back failure does not change the returned result; the write-back
(key `products:list:<limit>`, TTL 300) is attempted iff the cache client is
available and at least one row was returned — with zero rows (or no cache
client) no write-back is attempted. -/
theorem get_products_db_writeback (e : Env) (limit : Int) (rows : List Row)
    (h : 0 < limit)
    (hmiss : cacheStep e limit = none) (hdb : e.db_avail = true)
    (hrows : e.db_rows = .ok rows) :
    (get_products e limit).result.source = "database" ∧
    (get_products e limit).result.cached = false ∧
    (get_products e limit).writes =
      (if e.redis_avail = true ∧ rows ≠ [] then
        [(cacheKey limit, 300, encodeProducts (rows.map rowToProduct))] else []) ∧
    ∀ b : Bool, (get_products { e with cache_set_fails := b } limit).result =
      (get_products e limit).result := by
  have hcs : ∀ b : Bool, cacheStep { e with cache_set_fails := b } limit = cacheStep e limit :=
    fun _ => rfl
  unfold get_products
  rw [hmiss]
  refine ⟨?_, ?_, ?_, ?_⟩
  · unfold storeStep; simp [hdb, hrows]
  · unfold storeStep; simp [hdb, hrows]
  · unfold storeStep; simp [hdb, hrows]
  · intro b
    rw [hcs b, hmiss]
    unfold storeStep
    simp [hdb, hrows]

/-- Witness for the amended C3 at three rows, `limit = 2`, healthy cache and
store. -/
theorem get_products_db_writeback_inst :
    (get_products (envRows rows3) 2).result.source = "database" ∧
    (get_products (envRows rows3) 2).result.cached = false ∧
    (get_products (envRows rows3) 2).writes =
      (if (envRows rows3).redis_avail = true ∧ rows3 ≠ [] then
        [(cacheKey 2, 300, encodeProducts (rows3.map rowToProduct))] else []) ∧
    ∀ b : Bool, (get_products { envRows rows3 with cache_set_fails := b } 2).result =
      (get_products (envRows rows3) 2).result :=
  get_products_db_writeback (envRows rows3) 2 rows3 (by decide) rfl rfl rfl

/-! ## C4 -/

/-- The synthetic list has `min(limit + 1, 6) - 1` elements. -/
theorem mockList_length (e : Env) (limit : Int) :
    (mockList e limit).length = (min (limit + 1) 6 - 1).toNat := by
  unfold mockList pyRange
  rw [List.length_map, List.length_map, List.length_range]

/-- Claim C4: for every `limit > 0`, whenever the result has
`source = mock`, the returned records are the synthetic list and its length
is exactly `min limit 5` (so with `limit = 20` and the store unavailable,
exactly 5 records). -/
theorem get_products_mock_count (e : Env) (limit : Int) (h : 0 < limit)
    (hm : (get_products e limit).result.source = "mock") :
    (get_products e limit).result.products = encodeProducts (mockList e limit) ∧
    ((mockList e limit).length : Int) = min limit 5 := by
  constructor
  · unfold get_products storeStep at hm ⊢
    cases hc : cacheStep e limit with
    | some v => simp [hc] at hm
    | none =>
      cases hdb : e.db_avail with
      | false => simp [hc, hdb]
      | true =>
        cases hrows : e.db_rows with
        | ok rows => simp [hc, hdb, hrows] at hm
        | error err => simp [hc, hdb, hrows]
  · rw [mockList_length]
    omega

/-- Witness for C4: `limit = 20`, store unavailable, exactly 5 synthetic
records. -/
theorem get_products_mock_count_inst :
    (get_products env0 20).result.products = encodeProducts (mockList env0 20) ∧
    ((mockList env0 20).length : Int) = min 20 5 :=
  get_products_mock_count env0 20 (by decide) rfl

/-! ## C5 -/

/-- Claim C5: on the database path every returned record has
`discounted_price = price * 0.9` (the fixed 10% discount); the result is the
mapped row list with `source = database`, `cached = false`. -/
theorem get_products_db_discount (e : Env) (limit : Int) (rows : List Row)
    (hmiss : cacheStep e limit = none) (hdb : e.db_avail = true)
    (hrows : e.db_rows = .ok rows) :
    (get_products e limit).result.source = "database" ∧
    (get_products e limit).result.cached = false ∧
    (get_products e limit).result.products = encodeProducts (rows.map rowToProduct) ∧
    ∀ p ∈ rows.map rowToProduct, p.discounted_price = p.price * (9 / 10) := by
  unfold get_products
  rw [hmiss]
  refine ⟨?_, ?_, ?_, ?_⟩
  · unfold storeStep; simp [hdb, hrows]
  · unfold storeStep; simp [hdb, hrows]
  · unfold storeStep; simp [hdb, hrows]
  · intro p hp
    simp only [List.mem_map] at hp
    obtain ⟨r, _, rfl⟩ := hp
    unfold rowToProduct
    by_cases hpt : priceTruthy r.price = true
    · simp [hpt]
    · simp [hpt]

/-- Witness for C5: `limit = 10`, empty cache, store returns the three rows
of `rows3` — 3 records on the database path. -/
theorem get_products_db_discount_inst :
    (rows3.map rowToProduct).length = 3 ∧
    ((get_products (envRows rows3) 10).result.source = "database" ∧
     (get_products (envRows rows3) 10).result.cached = false ∧
     (get_products (envRows rows3) 10).result.products =
       encodeProducts (rows3.map rowToProduct) ∧
     ∀ p ∈ rows3.map rowToProduct, p.discounted_price = p.price * (9 / 10)) :=
  ⟨rfl, get_products_db_discount (envRows rows3) 10 rows3 rfl rfl rfl⟩

/-! ## Shared helper lemmas for the cache-state claims -/

/-- An empty cache always yields a cache miss, whatever the client state. -/
theorem cacheStep_none_empty (e : Env) (limit : Int)
    (hc : e.cache = fun _ => none) : cacheStep e limit = none := by
  unfold cacheStep
  rw [hc]
  cases e.redis_avail <;> cases e.cache_get_fails <;> simp

/-- A truthy cached string parsing to `v` makes the cache step return `v`. -/
theorem cacheStep_json (e : Env) (limit : Int) (v : Json)
    (hr : e.redis_avail = true) (hg : e.cache_get_fails = false)
    (hc : e.cache (cacheKey limit) = some (.json v)) :
    cacheStep e limit = some v := by
  unfold cacheStep
  simp [hr, hg, hc, truthyCache, jsonLoads]

/-- The result and write list of the store step do not depend on the cache
contents or the cache failure flags: two environments agreeing on the store
and mock inputs produce the same result and the same attempted writes. -/
theorem storeStep_ext (e e2 : Env) (limit : Int)
    (hdb : e2.db_avail = e.db_avail) (hrows : e2.db_rows = e.db_rows)
    (hr : e2.redis_avail = e.redis_avail)
    (hst : e2.rand_stock = e.rand_stock) (hpr : e2.rand_price = e.rand_price)
    (hdi : e2.rand_disc = e.rand_disc) :
    (storeStep e2 limit).result = (storeStep e limit).result ∧
    (storeStep e2 limit).writes = (storeStep e limit).writes := by
  have hml : mockList e2 limit = mockList e limit := by
    unfold mockList mockProduct
    rw [hst, hpr, hdi]
  unfold storeStep
  rw [hdb, hrows, hr, hml]
  cases hdb2 : e.db_avail with
  | false => simp
  | true => cases e.db_rows <;> simp

/-- A cache hit fully determines the outcome: value returned verbatim, no
writes, cache unchanged. -/
theorem get_products_of_cacheStep_some (e : Env) (limit : Int) (v : Json)
    (hstep : cacheStep e limit = some v) :
    get_products e limit =
      { result := { products := v, source := "cache", cached := true }
        writes := []
        cache' := e.cache } := by
  unfold get_products
  rw [hstep]

/-- First call against an empty cache, healthy Redis and a store returning a
non-empty row list: database result, one write-back, updated cache. -/
theorem get_products_healthy_first (e : Env) (limit : Int) (rows : List Row)
    (hc : e.cache = fun _ => none) (hdb : e.db_avail = true)
    (hrows : e.db_rows = .ok rows) (hr : e.redis_avail = true)
    (hs : e.cache_set_fails = false) (hne : rows ≠ []) :
    get_products e limit =
      { result := { products := encodeProducts (rows.map rowToProduct),
                    source := "database", cached := false }
        writes := [(cacheKey limit, 300, encodeProducts (rows.map rowToProduct))]
        cache' := fun k => if k = cacheKey limit then
            some (.json (encodeProducts (rows.map rowToProduct))) else e.cache k } := by
  have hmiss := cacheStep_none_empty e limit hc
  have hlist : (rows.map rowToProduct).isEmpty = false := by
    cases rows with
    | nil => exact absurd rfl hne
    | cons a t => rfl
  unfold get_products storeStep
  rw [hmiss]
  simp [hdb, hrows, hr, hs, hlist]

/-! ## C6 -/

/-- Claim C6: with the cache available and a value stored under the key, a
value that fails `json.loads` is absorbed and treated exactly as a miss (the
returned result and attempted writes equal those of the run with the entry
absent), while a value parsing to `v` yields `products = v`,
`source = cache`, `cached = true`. -/
theorem get_products_corrupt_cache_miss (e : Env) (limit : Int) (cv : CacheVal)
    (h : 0 < limit)
    (hr : e.redis_avail = true) (hg : e.cache_get_fails = false)
    (hc : e.cache (cacheKey limit) = some cv) :
    (cv = CacheVal.corrupt →
      (get_products e limit).result = (get_products (eMiss e limit) limit).result ∧
      (get_products e limit).writes = (get_products (eMiss e limit) limit).writes) ∧
    (∀ v, cv = CacheVal.json v →
      (get_products e limit).result.products = v ∧
      (get_products e limit).result.source = "cache" ∧
      (get_products e limit).result.cached = true) := by
  constructor
  · rintro rfl
    have h1 : cacheStep e limit = none := by
      unfold cacheStep
      simp [hr, hg, hc, truthyCache, jsonLoads]
    have h2 : cacheStep (eMiss e limit) limit = none := by
      unfold cacheStep eMiss
      simp [hr, hg]
    unfold get_products
    rw [h1, h2]
    have hirr := storeStep_ext e (eMiss e limit) limit rfl rfl rfl rfl rfl rfl
    exact ⟨hirr.1.symm, hirr.2.symm⟩
  · rintro v rfl
    have hstep := cacheStep_json e limit v hr hg hc
    unfold get_products
    rw [hstep]
    exact ⟨rfl, rfl, rfl⟩

/-- Witness for C6: a corrupt entry under the `limit = 2` key. -/
theorem get_products_corrupt_cache_miss_inst :
    (CacheVal.corrupt = CacheVal.corrupt →
      (get_products envCorrupt 2).result = (get_products (eMiss envCorrupt 2) 2).result ∧
      (get_products envCorrupt 2).writes = (get_products (eMiss envCorrupt 2) 2).writes) ∧
    (∀ v, CacheVal.corrupt = CacheVal.json v →
      (get_products envCorrupt 2).result.products = v ∧
      (get_products envCorrupt 2).result.source = "cache" ∧
      (get_products envCorrupt 2).result.cached = true) :=
  get_products_corrupt_cache_miss envCorrupt 2 .corrupt (by decide) rfl rfl
    (by simp [envCorrupt])

/-! ## C7 -/

/-- Counterexample to claim C7: with a healthy cache and store but a store
returning zero rows, nothing is written back (see C3), so the second call is
again a cache miss and returns `source = database`, not `source = cache`. -/
theorem get_products_idempotence_cex :
    (get_products { envRows [] with cache := (get_products (envRows []) 7).cache' } 7
      ).result.source = "database" ∧
    (get_products { envRows [] with cache := (get_products (envRows []) 7).cache' } 7
      ).result.source ≠ "cache" := by
  have h1 : (get_products { envRows [] with
      cache := (get_products (envRows []) 7).cache' } 7).result.source = "database" := rfl
  refine ⟨h1, ?_⟩
  rw [h1]
  decide

/-- Claim C7 amended: starting from an empty cache with healthy cache and
store, if the store returns at least one row, the second call with the same
limit returns the identical record set with `source = cache` (the first had
`source = database`).  With zero rows nothing is cached and the second call
hits the database again. -/
theorem get_products_idempotent_cached (e : Env) (limit : Int) (rows : List Row)
    (h : 0 < limit)
    (hr : e.redis_avail = true) (hg : e.cache_get_fails = false)
    (hs : e.cache_set_fails = false)
    (hc : e.cache = fun _ => none)
    (hdb : e.db_avail = true) (hrows : e.db_rows = .ok rows)
    (hne : rows ≠ []) :
    (get_products e limit).result.source = "database" ∧
    (get_products { e with cache := (get_products e limit).cache' } limit).result.source
      = "cache" ∧
    (get_products { e with cache := (get_products e limit).cache' } limit).result.products
      = (get_products e limit).result.products := by
  have h1 := get_products_healthy_first e limit rows hc hdb hrows hr hs hne
  have hstep2 : cacheStep { e with cache := (get_products e limit).cache' } limit
      = some (encodeProducts (rows.map rowToProduct)) := by
    apply cacheStep_json
    · exact hr
    · exact hg
    · show (get_products e limit).cache' (cacheKey limit) = _
      rw [h1]
      simp
  have h2 := get_products_of_cacheStep_some _ limit _ hstep2
  rw [h2, h1]
  exact ⟨rfl, rfl, rfl⟩

/-- Witness for the amended C7: healthy environment, three rows, second call
served from cache with the same records. -/
theorem get_products_idempotent_cached_inst :
    (get_products (envRows rows3) 1).result.source = "database" ∧
    (get_products { envRows rows3 with
        cache := (get_products (envRows rows3) 1).cache' } 1).result.source = "cache" ∧
    (get_products { envRows rows3 with
        cache := (get_products (envRows rows3) 1).cache' } 1).result.products
      = (get_products (envRows rows3) 1).result.products :=
  get_products_idempotent_cached (envRows rows3) 1 rows3 (by decide) rfl rfl rfl rfl
    rfl rfl (by decide)

/-! ## C8 -/

/-- `decodeProduct` is a field-for-field inverse of `productToJson`. -/
theorem decodeProduct_productToJson (p : ProductDict) :
    decodeProduct (productToJson p) = some p := by
  unfold productToJson decodeProduct
  simp

/-- `decodeList` inverts the element-wise encoding. -/
theorem decodeList_map_productToJson (l : List ProductDict) :
    decodeList (l.map productToJson) = some l := by
  induction l with
  | nil => rfl
  | cons p t ih =>
    rw [List.map_cons]
    unfold decodeList
    rw [decodeProduct_productToJson, ih]

/-- `decodeProducts` inverts `encodeProducts`: the serialized record list
deserializes to the identical list, field for field. -/
theorem decodeProducts_encodeProducts (l : List ProductDict) :
    decodeProducts (encodeProducts l) = some l := by
  unfold decodeProducts encodeProducts
  exact decodeList_map_productToJson l

/-- Claim C8: the record list written to the cache by the store-success step
is, on a subsequent call with the same limit, served verbatim from the cache
(`source = cache`) and deserializes to the identical `ProductDict` list,
field for field. -/
theorem get_products_cache_roundtrip (e : Env) (limit : Int) (rows : List Row)
    (hr : e.redis_avail = true) (hg : e.cache_get_fails = false)
    (hs : e.cache_set_fails = false)
    (hc : e.cache = fun _ => none)
    (hdb : e.db_avail = true) (hrows : e.db_rows = .ok rows)
    (hne : rows ≠ []) :
    (get_products e limit).writes =
      [(cacheKey limit, 300, encodeProducts (rows.map rowToProduct))] ∧
    (get_products { e with cache := (get_products e limit).cache' } limit).result.source
      = "cache" ∧
    (get_products { e with cache := (get_products e limit).cache' } limit).result.products
      = encodeProducts (rows.map rowToProduct) ∧
    decodeProducts ((get_products { e with
        cache := (get_products e limit).cache' } limit).result.products)
      = some (rows.map rowToProduct) := by
  have h1 := get_products_healthy_first e limit rows hc hdb hrows hr hs hne
  have hstep2 : cacheStep { e with cache := (get_products e limit).cache' } limit
      = some (encodeProducts (rows.map rowToProduct)) := by
    apply cacheStep_json
    · exact hr
    · exact hg
    · show (get_products e limit).cache' (cacheKey limit) = _
      rw [h1]
      simp
  have h2 := get_products_of_cacheStep_some _ limit _ hstep2
  rw [h2, h1]
  exact ⟨rfl, rfl, rfl,
    decodeProducts_encodeProducts (rows.map rowToProduct)⟩

/-- Witness for C8: the three-row write-back round-trips through the cache. -/
theorem get_products_cache_roundtrip_inst :
    (get_products (envRows rows3) 5).writes =
      [(cacheKey 5, 300, encodeProducts (rows3.map rowToProduct))] ∧
    (get_products { envRows rows3 with
        cache := (get_products (envRows rows3) 5).cache' } 5).result.source = "cache" ∧
    (get_products { envRows rows3 with
        cache := (get_products (envRows rows3) 5).cache' } 5).result.products
      = encodeProducts (rows3.map rowToProduct) ∧
    decodeProducts ((get_products { envRows rows3 with
        cache := (get_products (envRows rows3) 5).cache' } 5).result.products)
      = some (rows3.map rowToProduct) :=
  get_products_cache_roundtrip (envRows rows3) 5 rows3 rfl rfl rfl rfl rfl rfl
    (by decide)
